import Mathlib

/-!
Shallow embedding of the IoT dashboard repository.

Viewer side (frontend script with threat popup, and its earlier draft
without one): device rendering, summary badges, the strict threat scan
over rendered device cards, and the single popup surface.

Edge side (ESP8266 sketch, two drafts): WiFi reconnect backoff, the
ISO-timestamp routine (revised draft with NTP wait window and epoch
fallback, and the earlier draft returning raw millis), and the sensor
send loop that skips NaN readings.

Page text and device fields are modelled as `List Char`; JavaScript
string operations (trim, case-insensitive anchored regex test) are
embedded as functions over `List Char`.
-/

/-- The whitespace class trimmed by JavaScript `String.prototype.trim`
(ASCII whitespace plus no-break space; the exotic Unicode space
code points are omitted, all theorems quantify over this class). -/
def isJsWs (c : Char) : Bool :=
  c = ' ' || c = '\t' || c = '\n' || c = '\r' || c = '\x0b' || c = '\x0c' || c = ' '

/-- Lower-case an ASCII character, as JavaScript case-insensitive
regex matching canonicalises ASCII letters. -/
def lowerChar (c : Char) : Char :=
  if 'A' ≤ c && c ≤ 'Z' then Char.ofNat (c.toNat + 32) else c

/-- Case canonicalisation of a text, character by character. -/
def jsLower (s : List Char) : List Char := s.map lowerChar

/-- Drop leading JS whitespace. -/
def trimLeft (s : List Char) : List Char := s.dropWhile isJsWs

/-- Drop trailing JS whitespace. -/
def trimRight (s : List Char) : List Char := ((s.reverse.dropWhile isJsWs)).reverse

/-- JavaScript `txt.trim()`: drop whitespace from both ends. -/
def jsTrim (s : List Char) : List Char := trimRight (trimLeft s)

/-- The anchored case-insensitive test `/^Threat Detected$/i.test(txt)`
of `existsThreatDetectedInCards`: a whole-field match of the sentinel
phrase up to ASCII letter case. -/
def threatRegexTest (txt : List Char) : Bool :=
  jsLower txt == ("Threat Detected").data.map lowerChar

/-- A device record as served by the registry and consumed by
`fetchAndRender` (fields of the rendered card template). -/
structure Device where
  id : Nat
  name : List Char
  type : List Char
  data : List Char
  location : List Char
  last_seen : List Char
  power : Bool
  threat : List Char
deriving DecidableEq, Repr

/-- A rendered device card: the data-carrying parts of the `innerHTML`
template of `fetchAndRender`'s per-device loop. The threat paragraph
carries class `threat` or `no-threat` and the raw threat text. -/
structure Card where
  name : List Char
  status : List Char
  statusClass : List Char
  type : List Char
  data : List Char
  threatClass : List Char
  threatText : List Char
  location : List Char
  lastSeen : List Char
  powerText : List Char
deriving DecidableEq, Repr

/-- Render one device card, as the body of `devices.forEach` in
`fetchAndRender` does. -/
def renderCard (d : Device) : Card :=
  let isPowerOn := d.power
  { name := d.name
    status := if isPowerOn then ("Online").data else ("Offline").data
    statusClass := if isPowerOn then ("bg-success").data else ("bg-secondary").data
    type := d.type
    data := d.data
    threatClass := if d.threat = ("No Threat").data then ("no-threat").data else ("threat").data
    threatText := d.threat
    location := d.location
    lastSeen := d.last_seen
    powerText := if isPowerOn then ("ON").data else ("OFF").data }

/-- The three counters computed by `renderSummary`: `power` truthy
counts online, otherwise offline; `threat === "Threat Detected"`
(case-sensitive string identity) counts a threat. -/
structure Summary where
  online : Nat
  offline : Nat
  threats : Nat
deriving DecidableEq, Repr

/-- `renderSummary`'s counting pass over the device collection. -/
def renderSummary (devices : List Device) : Summary :=
  { online := (devices.filter (fun d => d.power)).length
    offline := (devices.filter (fun d => !d.power)).length
    threats := (devices.filter (fun d => d.threat = ("Threat Detected").data)).length }

/-- The text written into the `#status-summary` element's `innerHTML`
by `renderSummary` (badge texts, markup elided): it always contains the
words "Threat Detected" after the threat counter. -/
def summaryText (s : Summary) : List Char :=
  (Nat.repr s.online).data ++ (" Online ").data
    ++ (Nat.repr s.offline).data ++ (" Offline ").data
    ++ (Nat.repr s.threats).data ++ (" Threat Detected").data

/-- The default popup subtitle: `text || 'Potential malicious activity
detected'` — the empty string is falsy in JavaScript. -/
def popupSub (text : List Char) : List Char :=
  if text = [] then ("Potential malicious activity detected").data else text

/-- `removePopup`: `document.getElementById('threat-popup')` returns the
first element with that id and `remove()` deletes it. The body's
`#threat-popup` elements are modelled in document order as a list of
their subtitle texts. -/
def removePopup (ps : List (List Char)) : List (List Char) :=
  match ps with
  | [] => []
  | _ :: t => t

/-- `createPopup(text)`: remove the existing popup (first, if any),
then append a fresh one to `document.body`. -/
def createPopup (text : List Char) (ps : List (List Char)) : List (List Char) :=
  removePopup ps ++ [popupSub text]

/-- The viewer page state: the `#status-summary` element, the
`#device-grid` cards, and the `#threat-popup` elements in the body. -/
structure Dom where
  summary : Summary
  grid : List Card
  popups : List (List Char)
deriving DecidableEq, Repr

/-- `existsThreatDetectedInCards`: `querySelectorAll('#device-grid
.threat')` selects exactly the threat paragraphs with class `threat`
inside the grid (the summary element lives outside `#device-grid` and
is never selected); each selected text is trimmed and tested against
the anchored case-insensitive sentinel regex. -/
def existsThreatDetectedInCards (dom : Dom) : Bool :=
  (dom.grid.filterMap fun c =>
      if c.threatClass = ("threat").data then some c.threatText else none).any
    fun txt => threatRegexTest (jsTrim txt)

/-- `scanDomForThreat`: level-triggered — create the popup when a card
matches, remove it otherwise. -/
def scanDomForThreat (dom : Dom) : Dom :=
  if existsThreatDetectedInCards dom then
    { dom with popups := createPopup [] dom.popups }
  else
    { dom with popups := removePopup dom.popups }

/-- `fetchAndRender`, with the registry fetch outcome made explicit:
`none` models a rejected fetch / failed JSON decode (the `catch` branch
logs and leaves the page untouched); `some devices` renders the
summary, replaces the grid wholesale, and runs the threat scan.
Returns the new page state and the console log lines of the call. -/
def fetchAndRender (result : Option (List Device)) (dom : Dom) : Dom × List (List Char) :=
  match result with
  | none => (dom, [("Failed to fetch devices:").data])
  | some devices =>
    (scanDomForThreat { dom with summary := renderSummary devices
                                 grid := devices.map renderCard }, [])

/-! ### Real-time sync engine initialisation (socket with polling fallback) -/

/-- Events delivered on a successfully created socket. -/
inductive SocketEvent where
  | connectEv
  | connectErrorEv (err : List Char)
  | deviceUpdateEv
deriving DecidableEq, Repr

/-- Viewer sync-engine state: whether an unconditional `setInterval`
refresh loop is installed (and its period), how many refreshes have
been triggered by socket events, and the console log. -/
structure ViewerSync where
  pollingMs : Option Nat
  refreshes : Nat
  logs : List (List Char)
deriving DecidableEq, Repr

/-- The `try/catch` socket initialisation block: when `io(...)` throws
synchronously the `catch` branch warns and installs
`setInterval(fetchAndRender, 3000)`; when it succeeds, handlers are
registered and no polling interval is installed. -/
def initSocket (ioThrows : Bool) : ViewerSync :=
  if ioThrows then
    { pollingMs := some 3000
      refreshes := 0
      logs := [("Socket.IO init failed (fallback to polling):").data] }
  else
    { pollingMs := none, refreshes := 0, logs := [] }

/-- The registered socket event handlers: `connect` and
`connect_error` only log; `device_update` logs and calls
`fetchAndRender`. -/
def handleSocketEvent (e : SocketEvent) (s : ViewerSync) : ViewerSync :=
  match e with
  | .connectEv => { s with logs := s.logs ++ [("Socket connected:").data] }
  | .connectErrorEv err => { s with logs := s.logs ++ [("Socket connect_error:").data ++ err] }
  | .deviceUpdateEv =>
    { s with refreshes := s.refreshes + 1
             logs := s.logs ++ [("Real-time update:").data] }

/-! ### Edge telemetry client (ESP8266 sketch) -/

/-- `unsigned long` subtraction `a - b` on 32-bit values (the sketch
compares `millis()` differences this way). Arbitrary `Nat` inputs are
first reduced mod `2^32`. -/
def usub32 (a b : Nat) : Nat := (a % 2 ^ 32 + 2 ^ 32 - b % 2 ^ 32) % 2 ^ 32

def WIFI_RECONNECT_INTERVAL_MS : Nat := 5000

def SEND_INTERVAL_MS : Nat := 5000

def DEVICE_ID : Nat := 1

/-- The sketch's mutable timing globals. -/
structure EdgeState where
  lastWifiAttempt : Nat
  lastSend : Nat
deriving DecidableEq, Repr

/-- Global initial values: `lastWifiAttempt = 0`, `lastSend = 0`. -/
def edgeInit : EdgeState := { lastWifiAttempt := 0, lastSend := 0 }

/-- `reconnectIfNeeded()` at `millis() = nowMs` with the given WiFi
status: returns the updated state and whether `WiFi.begin` was called.
Connected: return at once. Not connected but within the backoff window
since `lastWifiAttempt`: return. Otherwise record the attempt time and
begin a connection attempt. -/
def reconnectIfNeeded (connected : Bool) (nowMs : Nat) (s : EdgeState) : EdgeState × Bool :=
  if connected then (s, false)
  else if usub32 nowMs s.lastWifiAttempt < WIFI_RECONNECT_INTERVAL_MS then (s, false)
  else ({ s with lastWifiAttempt := nowMs }, true)

/-- Run `reconnectIfNeeded` over a trace of loop iterations, each an
observation `(millis, WiFi connected?)`; collect the times at which
`WiFi.begin` was called. -/
def runReconnects (s : EdgeState) : List (Nat × Bool) → List Nat
  | [] => []
  | (t, c) :: rest =>
    if (reconnectIfNeeded c t s).2 then t :: runReconnects (reconnectIfNeeded c t s).1 rest
    else runReconnects (reconnectIfNeeded c t s).1 rest

/-! ### Timestamp routine -/

/-- Two-digit zero padding, as `%02lu` formats values below 100. -/
def pad2 (n : Nat) : String := if n < 10 then "0" ++ Nat.repr n else Nat.repr n

/-- Civil date from a count of days since 1970-01-01 (the Gregorian
calendar computation performed by `gmtime_r`), returning
(year, month, day). -/
def civilFromDays (days : Nat) : Nat × Nat × Nat :=
  let z := days + 719468
  let era := z / 146097
  let doe := z % 146097
  let yoe := (doe - doe / 1460 + doe / 36524 - doe / 146096) / 365
  let y := yoe + era * 400
  let doy := doe - (365 * yoe + yoe / 4 - yoe / 100)
  let mp := (5 * doy + 2) / 153
  let d := doy - (153 * mp + 2) / 5 + 1
  let m := if mp < 10 then mp + 3 else mp - 9
  (if m ≤ 2 then y + 1 else y, m, d)

/-- `gmtime_r` + `strftime("%Y-%m-%dT%H:%M:%S")` on a (non-negative)
epoch-second value. -/
def formatEpochIso (epoch : Nat) : String :=
  let days := epoch / 86400
  let rem := epoch % 86400
  let ymd := civilFromDays days
  Nat.repr ymd.1 ++ "-" ++ pad2 ymd.2.1 ++ "-" ++ pad2 ymd.2.2
    ++ "T" ++ pad2 (rem / 3600) ++ ":" ++ pad2 (rem % 3600 / 60) ++ ":" ++ pad2 (rem % 60)

/-- The fallback formatting of the revised `getIsoTimestamp`: derive
`HH:MM:SS` from device uptime milliseconds and substitute the fixed
epoch date. -/
def uptimeFallbackIso (ms : Nat) : String :=
  let sec := ms / 1000
  "1970-01-01T" ++ pad2 (sec / 3600 % 24) ++ ":" ++ pad2 (sec / 60 % 60) ++ ":" ++ pad2 (sec % 60)

/-- The NTP wait loop of the revised `getIsoTimestamp`: while less than
2000 ms have elapsed, sleep 200 ms, poll `time(nullptr)`, and stop early
once it exceeds the sentinel threshold 1000. `timeAt` gives the wall
clock value observed at each `millis()` instant; returns the `millis()`
value at loop exit and the last polled time. Fuel bounds the recursion;
11 units cover the 10 possible iterations. -/
def ntpWaitLoop (timeAt : Nat → Nat) (start : Nat) : Nat → Nat → Nat → Nat × Nat
  | elapsed, now, 0 => (start + elapsed, now)
  | elapsed, now, fuel + 1 =>
    if elapsed < 2000 then
      let e := elapsed + 200
      let n := timeAt (start + e)
      if n > 1000 then (start + e, n) else ntpWaitLoop timeAt start e n fuel
    else (start + elapsed, now)

/-- The revised `getIsoTimestamp` (the draft with the bounded NTP wait
window): read the wall clock; if it looks uninitialized (at or below
1000), poll for up to 2000 ms; if still uninitialized, return the
uptime-derived `1970-01-01THH:MM:SS` fallback, otherwise format the
epoch time. -/
def getIsoTimestampV1 (timeAt : Nat → Nat) (startMs : Nat) : String :=
  let now0 := timeAt startMs
  let r := if now0 ≤ 1000 then ntpWaitLoop timeAt startMs 0 now0 11 else (startMs, now0)
  if r.2 ≤ 1000 then uptimeFallbackIso r.1 else formatEpochIso r.2

/-- The earlier draft's `getIsoTimestamp`: when the wall clock looks
uninitialized it returns `String(millis())` — the raw tick counter in
decimal — with no wait window and no epoch-date fallback. -/
def getIsoTimestampV2 (timeAt : Nat → Nat) (nowMs : Nat) : String :=
  let now := timeAt nowMs
  if now ≤ 1000 then Nat.repr nowMs else formatEpochIso now

/-- Syntactic check for the `YYYY-MM-DDTHH:MM:SS` shape: 19 characters,
digits in the date/time positions, `-` `-` `T` `:` `:` separators. -/
def isIsoShaped (s : String) : Bool :=
  match s.data with
  | [y1, y2, y3, y4, d1, m1, m2, d2, dd1, dd2, t, h1, h2, c1, mi1, mi2, c2, s1, s2] =>
    y1.isDigit && y2.isDigit && y3.isDigit && y4.isDigit && d1 = '-'
      && m1.isDigit && m2.isDigit && d2 = '-' && dd1.isDigit && dd2.isDigit
      && t = 'T' && h1.isDigit && h2.isDigit && c1 = ':'
      && mi1.isDigit && mi2.isDigit && c2 = ':' && s1.isDigit && s2.isDigit
  | _ => false

/-! ### Sensor send loop -/

/-- A telemetry submission, field for field the JSON object built by
`sendSensorData` (numeric readings kept as exact values; the 2-decimal
wire formatting is presentation). -/
structure Submission where
  device_id : Nat
  timestamp : String
  temperature : Rat
  humidity : Rat
  motion : Nat
deriving DecidableEq, Repr

/-- `sendSensorData()` at `millis() = nowMs`: DHT readings are `none`
for the NaN fault sentinel. A NaN reading logs `DHT read failed.` and
returns without constructing a submission; otherwise the timestamp is
resolved and the submission built and POSTed (fire and forget).
Returns the submission (if any) and the local log lines. -/
def sendSensorData (timeAt : Nat → Nat) (nowMs : Nat) (h t : Option Rat) :
    Option Submission × List String :=
  match h, t with
  | none, _ => (none, ["DHT read failed."])
  | _, none => (none, ["DHT read failed."])
  | some hv, some tv =>
    let ts := getIsoTimestampV1 timeAt nowMs
    (some { device_id := DEVICE_ID, timestamp := ts
            temperature := tv, humidity := hv, motion := 0 },
     ["Sending JSON:"])

/-- One iteration of `loop()` at `millis() = nowMs`: run
`reconnectIfNeeded`, then, if the send interval has elapsed since
`lastSend`, record the tick time and either send (when connected) or
log a skip. Returns the new state, the submission made this tick (if
any), and the log lines. -/
def loopTick (timeAt : Nat → Nat) (connected : Bool) (nowMs : Nat)
    (h t : Option Rat) (s : EdgeState) : EdgeState × Option Submission × List String :=
  if usub32 nowMs ((reconnectIfNeeded connected nowMs s).1).lastSend ≥ SEND_INTERVAL_MS then
    if connected then
      ({ (reconnectIfNeeded connected nowMs s).1 with lastSend := nowMs },
       (sendSensorData timeAt nowMs h t).1, (sendSensorData timeAt nowMs h t).2)
    else
      ({ (reconnectIfNeeded connected nowMs s).1 with lastSend := nowMs },
       none, ["WiFi not connected. Skipping."])
  else
    ((reconnectIfNeeded connected nowMs s).1, none, [])

/-- A sequence of invocations of the alert scan, one per observed page
content (each refresh, mutation-observer firing, load event or timer
tick ends in one `scanDomForThreat` call on the then-current grid);
returns the popup list after the whole sequence. -/
def runScans (ps : List (List Char)) : List Dom → List (List Char)
  | [] => ps
  | dom :: rest => runScans (scanDomForThreat { dom with popups := ps }).popups rest

/-! ### Shared demonstration values -/

/-- A device whose threat field is the sentinel phrase in lower case. -/
def devLowerThreat : Device :=
  { id := 1, name := ("cam").data, type := ("Camera").data, data := ("ok").data
    location := ("hall").data, last_seen := ("t").data, power := true
    threat := ("threat detected").data }

/-- A device whose threat field contains the sentinel phrase only as a
proper substring of a longer sentence. -/
def devSubstringThreat : Device :=
  { id := 2, name := ("cam2").data, type := ("Camera").data, data := ("ok").data
    location := ("hall").data, last_seen := ("t").data, power := false
    threat := ("Possible Threat Detected in stream").data }

/-- A threat-free device. -/
def devNoThreat : Device :=
  { id := 3, name := ("cam3").data, type := ("Camera").data, data := ("ok").data
    location := ("hall").data, last_seen := ("t").data, power := true
    threat := ("No Threat").data }

/-- A device whose threat field is the sentinel phrase up to letter
case, wrapped in leading/trailing whitespace. -/
def devWsThreat : Device :=
  { id := 4, name := ("cam4").data, type := ("Camera").data, data := ("ok").data
    location := ("hall").data, last_seen := ("t").data, power := true
    threat := ("  threat DETECTED \t").data }

/-- An empty page before the initial load. -/
def emptyDom : Dom := { summary := { online := 0, offline := 0, threats := 0 }, grid := [], popups := [] }

/-! ### Claims -/

/-- C1. The revised timestamp routine keeps its fallback promise: with
the wall clock uninitialized for the whole wait window it produces the
ISO-shaped `1970-01-01THH:MM:SS` string derived from uptime. The
earlier draft of `getIsoTimestamp` still in the repository instead
returns `String(millis())` — a raw tick counter — on the very same
input, contradicting the revised draft's own documented fix, so the
claim is right and the stale draft is the slip. Evaluation at the
failing input: wall clock stuck at 0, `millis() = 6014`. -/
theorem timestamp_draft_returns_raw_ticks :
    getIsoTimestampV2 (fun _ => 0) 6014 = "6014"
      ∧ isIsoShaped ("6014") = false
      ∧ getIsoTimestampV1 (fun _ => 0) 6014 = "1970-01-01T00:00:08"
      ∧ isIsoShaped ("1970-01-01T00:00:08") = true := by
  refine ⟨by decide, by decide, by decide, by decide⟩

/-- C8. When the registry fetch (or its JSON decoding) fails, the
`catch` branch only logs: the page state — summary, device grid, and
alert surface alike — is returned unchanged, and the pipeline does not
crash (the function is total). -/
theorem fetch_failure_retains_snapshot (dom : Dom) :
    fetchAndRender none dom = (dom, [("Failed to fetch devices:").data]) := rfl

/-- C10. The summary threat counter and the alert scan can disagree:
a single device whose threat field is the lower-case "threat detected"
is counted as zero threats by `renderSummary` (case-sensitive `===`)
while `existsThreatDetectedInCards` (case-insensitive anchored regex)
triggers the alert surface. -/
theorem summary_and_scan_disagree :
    (renderSummary [devLowerThreat]).threats = 0
      ∧ existsThreatDetectedInCards
          { summary := renderSummary [devLowerThreat]
            grid := [devLowerThreat].map renderCard, popups := [] } = true
      ∧ (scanDomForThreat
          { summary := renderSummary [devLowerThreat]
            grid := [devLowerThreat].map renderCard, popups := [] }).popups ≠ [] := by
  refine ⟨by decide, by decide, by decide⟩

/-- C4, as stated, is false at a concrete input: when the socket is
created successfully and a connection error is then reported
asynchronously through the `connect_error` handler, the engine does
NOT install the 3000 ms fallback polling interval — the handler only
logs. -/
theorem connect_error_does_not_enable_polling :
    ¬ (handleSocketEvent (SocketEvent.connectErrorEv []) (initSocket false)).pollingMs
        = some 3000 := by decide

/-- C4 amended. Fallback polling on the fixed 3000 ms interval is
installed exactly when the push-channel initialisation itself throws
synchronously; an asynchronous `connect_error` after a successful
initialisation is only logged — it neither installs polling nor
triggers a refresh, and it changes no state but the log. -/
theorem fallback_polling_only_on_sync_failure :
    (initSocket true).pollingMs = some 3000
      ∧ (initSocket false).pollingMs = none
      ∧ (∀ (err : List Char) (s : ViewerSync),
          (handleSocketEvent (SocketEvent.connectErrorEv err) s).pollingMs = s.pollingMs
            ∧ (handleSocketEvent (SocketEvent.connectErrorEv err) s).refreshes = s.refreshes) := by
  refine ⟨rfl, rfl, fun err s => ⟨rfl, rfl⟩⟩


theorem removePopup_length (ps : List (List Char)) :
    (removePopup ps).length = ps.length - 1 := by
  cases ps <;> simp [removePopup]

theorem scan_popups_le_one (dom : Dom) (h : dom.popups.length ≤ 1) :
    (scanDomForThreat dom).popups.length ≤ 1 := by
  unfold scanDomForThreat
  split
  · show (createPopup [] dom.popups).length ≤ 1
    simp only [createPopup, List.length_append, removePopup_length, List.length_singleton]
    omega
  · show (removePopup dom.popups).length ≤ 1
    rw [removePopup_length]
    omega

theorem runScans_length_le (doms : List Dom) :
    ∀ ps : List (List Char), ps.length ≤ 1 → (runScans ps doms).length ≤ 1 := by
  induction doms with
  | nil => intro ps h; simpa [runScans] using h
  | cons d rest ih =>
    intro ps h
    simp only [runScans]
    exact ih _ (scan_popups_le_one { d with popups := ps } h)

theorem alert_surface_at_most_one :
    (∀ doms : List Dom, (runScans [] doms).length ≤ 1)
      ∧ ∀ text sub : List Char, createPopup text [sub] = [popupSub text] := by
  refine ⟨fun doms => runScans_length_le doms [] (by simp), fun text sub => rfl⟩

theorem usub32_sub (a b : Nat) (hb : b ≤ a) (ha : a < 2 ^ 32) : usub32 a b = a - b := by
  unfold usub32
  have h32 : (2 : Nat) ^ 32 = 4294967296 := by norm_num
  rw [h32] at ha ⊢
  omega

theorem reconnect_fire_needs_backoff (s : EdgeState) (connected : Bool) (nowMs : Nat)
    (h : (reconnectIfNeeded connected nowMs s).2 = true) :
    usub32 nowMs s.lastWifiAttempt ≥ WIFI_RECONNECT_INTERVAL_MS := by
  by_cases hc : connected = true
  · simp [reconnectIfNeeded, hc] at h
  · by_cases hlt : usub32 nowMs s.lastWifiAttempt < WIFI_RECONNECT_INTERVAL_MS
    · simp [reconnectIfNeeded, hc, hlt] at h
    · omega

theorem runReconnects_gap (events : List (Nat × Bool)) :
    ∀ s : EdgeState, s.lastWifiAttempt < 2 ^ 32 →
      (∀ e ∈ events, s.lastWifiAttempt ≤ e.1 ∧ e.1 < 2 ^ 32) →
      List.Pairwise (fun a b => a ≤ b) (events.map Prod.fst) →
      (∀ b ∈ runReconnects s events, s.lastWifiAttempt + WIFI_RECONNECT_INTERVAL_MS ≤ b)
        ∧ List.Pairwise (fun a b => a + WIFI_RECONNECT_INTERVAL_MS ≤ b)
            (runReconnects s events) := by
  induction events with
  | nil =>
    intro s _ _ _
    exact ⟨by simp [runReconnects], by simp [runReconnects]⟩
  | cons e rest ih =>
    intro s hs he hp
    obtain ⟨t, c⟩ := e
    have ht := he (t, c) (List.mem_cons_self _ _)
    simp only [List.map_cons, List.pairwise_cons] at hp
    have hrest : ∀ e' ∈ rest, s.lastWifiAttempt ≤ e'.1 ∧ e'.1 < 2 ^ 32 :=
      fun e' h' => he e' (List.mem_cons_of_mem _ h')
    by_cases hc : c = true
    · have hr : reconnectIfNeeded c t s = (s, false) := by simp [reconnectIfNeeded, hc]
      have hrun : runReconnects s ((t, c) :: rest) = runReconnects s rest := by
        simp [runReconnects, hr]
      rw [hrun]
      exact ih s hs hrest hp.2
    · by_cases hlt : usub32 t s.lastWifiAttempt < WIFI_RECONNECT_INTERVAL_MS
      · have hr : reconnectIfNeeded c t s = (s, false) := by simp [reconnectIfNeeded, hc, hlt]
        have hrun : runReconnects s ((t, c) :: rest) = runReconnects s rest := by
          simp [runReconnects, hr]
        rw [hrun]
        exact ih s hs hrest hp.2
      · have hr : reconnectIfNeeded c t s = ({ s with lastWifiAttempt := t }, true) := by
          simp [reconnectIfNeeded, hc, hlt]
        have hrun : runReconnects s ((t, c) :: rest)
            = t :: runReconnects { s with lastWifiAttempt := t } rest := by
          simp [runReconnects, hr]
        have hsub := usub32_sub t s.lastWifiAttempt ht.1 ht.2
        have hgap : s.lastWifiAttempt + WIFI_RECONNECT_INTERVAL_MS ≤ t := by omega
        have ihr := ih { s with lastWifiAttempt := t } ht.2
          (fun e' h' => ⟨hp.1 e'.1 (List.mem_map_of_mem Prod.fst h'), (hrest e' h').2⟩)
          hp.2
        have ih1 : ∀ b ∈ runReconnects { s with lastWifiAttempt := t } rest,
            t + WIFI_RECONNECT_INTERVAL_MS ≤ b := ihr.1
        rw [hrun]
        constructor
        · intro b hb
          rcases List.mem_cons.mp hb with hb | hb
          · omega
          · have := ih1 b hb
            omega
        · exact List.pairwise_cons.mpr ⟨fun b hb => ih1 b hb, ihr.2⟩

theorem reconnect_backoff_respected :
    (∀ (s : EdgeState) (connected : Bool) (nowMs : Nat),
        (reconnectIfNeeded connected nowMs s).2 = true →
          usub32 nowMs s.lastWifiAttempt ≥ WIFI_RECONNECT_INTERVAL_MS)
      ∧ ∀ events : List (Nat × Bool),
          (∀ e ∈ events, e.1 < 2 ^ 32) →
          List.Pairwise (fun a b => a ≤ b) (events.map Prod.fst) →
          List.Pairwise (fun a b => a + WIFI_RECONNECT_INTERVAL_MS ≤ b)
            (runReconnects edgeInit events) := by
  refine ⟨reconnect_fire_needs_backoff, fun events hlt hp => ?_⟩
  refine (runReconnects_gap events edgeInit (by norm_num [edgeInit]) ?_ hp).2
  intro e h
  exact ⟨Nat.zero_le _, hlt e h⟩

theorem reconnect_backoff_respected_witness :
    ((reconnectIfNeeded false 6000 edgeInit).2 = true →
        usub32 6000 edgeInit.lastWifiAttempt ≥ WIFI_RECONNECT_INTERVAL_MS)
      ∧ List.Pairwise (fun a b => a + WIFI_RECONNECT_INTERVAL_MS ≤ b)
          (runReconnects edgeInit [(1000, false), (6000, false), (7000, false), (12000, false)]) :=
  ⟨reconnect_backoff_respected.1 edgeInit false 6000,
   reconnect_backoff_respected.2 [(1000, false), (6000, false), (7000, false), (12000, false)]
     (by decide) (by decide)⟩

/-- 32-bit unsigned subtraction after advancing by less than one wrap
recovers the advance exactly. -/
theorem usub32_add (a k : Nat) (hk : k < 2 ^ 32) : usub32 (a + k) a = k := by
  unfold usub32
  have h32 : (2 : Nat) ^ 32 = 4294967296 := by norm_num
  rw [h32] at hk ⊢
  omega

/-- C6. A NaN sensor reading on a due, connected tick produces no
telemetry submission, logs only the local diagnostic, and leaves the
timing state exactly as a normal tick would (`lastSend := now`,
`lastWifiAttempt` untouched); the next due tick with valid readings
submits normally. -/
theorem invalid_reading_skips_tick (timeAt : Nat → Nat) (s : EdgeState) (nowMs : Nat)
    (h t : Option Rat) (hnan : h = none ∨ t = none)
    (hdue : usub32 nowMs s.lastSend ≥ SEND_INTERVAL_MS) :
    (loopTick timeAt true nowMs h t s).2.1 = none
      ∧ (loopTick timeAt true nowMs h t s).2.2 = ["DHT read failed."]
      ∧ (loopTick timeAt true nowMs h t s).1
          = { lastWifiAttempt := s.lastWifiAttempt, lastSend := nowMs }
      ∧ ∀ hv tv : Rat,
          (loopTick timeAt true (nowMs + SEND_INTERVAL_MS) (some hv) (some tv)
              (loopTick timeAt true nowMs h t s).1).2.1
            = some { device_id := DEVICE_ID
                     timestamp := getIsoTimestampV1 timeAt (nowMs + SEND_INTERVAL_MS)
                     temperature := tv, humidity := hv, motion := 0 } := by
  have hsend : sendSensorData timeAt nowMs h t = (none, ["DHT read failed."]) := by
    rcases hnan with hh | ht2
    · subst hh; cases t <;> rfl
    · subst ht2; cases h <;> rfl
  have hs1 : (reconnectIfNeeded true nowMs s).1 = s := rfl
  have hrun : loopTick timeAt true nowMs h t s
      = ({ lastWifiAttempt := s.lastWifiAttempt, lastSend := nowMs },
         none, ["DHT read failed."]) := by
    unfold loopTick
    rw [hs1, if_pos hdue, if_pos rfl, hsend]
  have hdue2 : usub32 (nowMs + SEND_INTERVAL_MS)
      ((reconnectIfNeeded true (nowMs + SEND_INTERVAL_MS)
          ({ lastWifiAttempt := s.lastWifiAttempt, lastSend := nowMs } : EdgeState)).1).lastSend
        ≥ SEND_INTERVAL_MS := by
    show usub32 (nowMs + SEND_INTERVAL_MS) nowMs ≥ SEND_INTERVAL_MS
    rw [usub32_add nowMs SEND_INTERVAL_MS (by norm_num [SEND_INTERVAL_MS])]
  refine ⟨by rw [hrun], by rw [hrun], by rw [hrun], fun hv tv => ?_⟩
  rw [hrun]
  unfold loopTick
  rw [if_pos hdue2, if_pos rfl]
  rfl

/-- C6 witness: a concrete due tick with a NaN humidity reading. -/
theorem invalid_reading_skips_tick_witness :
    ((none : Option Rat) = none ∨ (some (21 : Rat)) = none)
      ∧ usub32 6000 edgeInit.lastSend ≥ SEND_INTERVAL_MS
      ∧ ((loopTick (fun _ => 0) true 6000 none (some (21 : Rat)) edgeInit).2.1 = none
          ∧ (loopTick (fun _ => 0) true 6000 none (some (21 : Rat)) edgeInit).2.2
              = ["DHT read failed."]
          ∧ (loopTick (fun _ => 0) true 6000 none (some (21 : Rat)) edgeInit).1
              = { lastWifiAttempt := edgeInit.lastWifiAttempt, lastSend := 6000 }
          ∧ ∀ hv tv : Rat,
              (loopTick (fun _ => 0) true (6000 + SEND_INTERVAL_MS) (some hv) (some tv)
                  (loopTick (fun _ => 0) true 6000 none (some (21 : Rat)) edgeInit).1).2.1
                = some { device_id := DEVICE_ID
                         timestamp := getIsoTimestampV1 (fun _ => 0) (6000 + SEND_INTERVAL_MS)
                         temperature := tv, humidity := hv, motion := 0 }) :=
  ⟨Or.inl rfl, by decide,
   invalid_reading_skips_tick (fun _ => 0) edgeInit 6000 none (some (21 : Rat))
     (Or.inl rfl) (by decide)⟩

/-- A popup list with at most one element is emptied by `removePopup`. -/
theorem removePopup_eq_nil (ps : List (List Char)) (h : ps.length ≤ 1) :
    removePopup ps = [] := by
  match ps with
  | [] => rfl
  | [_] => rfl
  | _ :: _ :: _ => simp at h

/-- C7. `refresh()` is idempotent: running `fetchAndRender` twice on
the same backing device collection yields the identical page — same
summary, same grid, same alert surface — and the alert surface is
never duplicated (at most one popup after a refresh). -/
theorem refresh_idempotent (devices : List Device) (dom : Dom)
    (hp : dom.popups.length ≤ 1) :
    (fetchAndRender (some devices) (fetchAndRender (some devices) dom).1).1
        = (fetchAndRender (some devices) dom).1
      ∧ ((fetchAndRender (some devices) dom).1).popups.length ≤ 1 := by
  obtain ⟨s0, g0, p0⟩ := dom
  have hrm : removePopup p0 = [] := removePopup_eq_nil p0 hp
  by_cases hb : existsThreatDetectedInCards
      ⟨renderSummary devices, devices.map renderCard, p0⟩ = true
  · have h1 : (fetchAndRender (some devices) ⟨s0, g0, p0⟩).1
        = ⟨renderSummary devices, devices.map renderCard, [popupSub []]⟩ := by
      show (scanDomForThreat ⟨renderSummary devices, devices.map renderCard, p0⟩) = _
      unfold scanDomForThreat
      rw [if_pos hb]
      show (⟨renderSummary devices, devices.map renderCard,
        removePopup p0 ++ [popupSub []]⟩ : Dom) = _
      rw [hrm]
      rfl
    rw [h1]
    have hb2 : existsThreatDetectedInCards
        ⟨renderSummary devices, devices.map renderCard, [popupSub []]⟩ = true := hb
    constructor
    · show (scanDomForThreat
        ⟨renderSummary devices, devices.map renderCard, [popupSub []]⟩) = _
      unfold scanDomForThreat
      rw [if_pos hb2]
      rfl
    · rfl
  · rw [Bool.not_eq_true] at hb
    have h1 : (fetchAndRender (some devices) ⟨s0, g0, p0⟩).1
        = ⟨renderSummary devices, devices.map renderCard, []⟩ := by
      show (scanDomForThreat ⟨renderSummary devices, devices.map renderCard, p0⟩) = _
      unfold scanDomForThreat
      rw [hb]
      show (⟨renderSummary devices, devices.map renderCard, removePopup p0⟩ : Dom) = _
      rw [hrm]
    rw [h1]
    have hb2 : existsThreatDetectedInCards
        ⟨renderSummary devices, devices.map renderCard, []⟩ = false := hb
    constructor
    · show (scanDomForThreat
        ⟨renderSummary devices, devices.map renderCard, []⟩) = _
      unfold scanDomForThreat
      rw [hb2]
      rfl
    · simp

/-- C7 witness: one threat-free device on an initially popup-free page. -/
theorem refresh_idempotent_witness :
    emptyDom.popups.length ≤ 1
      ∧ ((fetchAndRender (some [devNoThreat]) (fetchAndRender (some [devNoThreat]) emptyDom).1).1
            = (fetchAndRender (some [devNoThreat]) emptyDom).1
          ∧ ((fetchAndRender (some [devNoThreat]) emptyDom).1).popups.length ≤ 1) :=
  ⟨by decide, refresh_idempotent [devNoThreat] emptyDom (by decide)⟩

/-- If no card's trimmed threat text whole-matches the sentinel, the
scan finds nothing — whatever the summary says. -/
theorem exists_false_of_no_match (dom : Dom)
    (hc : ∀ c ∈ dom.grid, threatRegexTest (jsTrim c.threatText) = false) :
    existsThreatDetectedInCards dom = false := by
  unfold existsThreatDetectedInCards
  rw [List.any_eq_false]
  intro txt htxt
  rw [List.mem_filterMap] at htxt
  obtain ⟨c, hcmem, hsome⟩ := htxt
  by_cases hcl : c.threatClass = ("threat").data
  · rw [if_pos hcl] at hsome
    have heq : c.threatText = txt := Option.some.inj hsome
    rw [← heq]
    simp [hc c hcmem]
  · rw [if_neg hcl] at hsome
    simp at hsome

/-- C2. The alert decision reads only the per-device threat fields, by
whole-field case-insensitive match: (1) if no card's trimmed threat
text equals the sentinel, the scan reports nothing, whatever the
summary holds; (2) in particular a field containing the sentinel only
inside a longer sentence does not trigger; (3) when every device field
fails the whole-field match the scan never creates an alert surface
(it only ever removes); (4) yet the summary counter text always
contains the sentinel words — they alone never show the alert. -/
theorem alert_scan_whole_field_only :
    (∀ dom : Dom,
        (∀ c ∈ dom.grid, threatRegexTest (jsTrim c.threatText) = false) →
        existsThreatDetectedInCards dom = false)
      ∧ existsThreatDetectedInCards
          { summary := renderSummary [devSubstringThreat]
            grid := [devSubstringThreat].map renderCard, popups := [] } = false
      ∧ (∀ (devices : List Device) (s0 : Summary) (ps : List (List Char)),
          (∀ d ∈ devices, threatRegexTest (jsTrim d.threat) = false) →
          (scanDomForThreat
              { summary := s0, grid := devices.map renderCard, popups := ps }).popups
            = removePopup ps)
      ∧ ∀ devices : List Device,
          ∃ pre post : List Char,
            summaryText (renderSummary devices)
              = pre ++ ("Threat Detected").data ++ post := by
  refine ⟨exists_false_of_no_match, by decide, ?_, ?_⟩
  · intro devices s0 ps hall
    have hfalse : existsThreatDetectedInCards
        { summary := s0, grid := devices.map renderCard, popups := ps } = false := by
      apply exists_false_of_no_match
      intro c hcmem
      rw [List.mem_map] at hcmem
      obtain ⟨d, hd, hdc⟩ := hcmem
      rw [← hdc]
      exact hall d hd
    unfold scanDomForThreat
    rw [hfalse]
    simp
  · intro devices
    refine ⟨(Nat.repr (renderSummary devices).online).data ++ (" Online ").data
      ++ (Nat.repr (renderSummary devices).offline).data ++ (" Offline ").data
      ++ (Nat.repr (renderSummary devices).threats).data ++ [' '], [], ?_⟩
    have hsp : (" Threat Detected").data = [' '] ++ ("Threat Detected").data := by decide
    simp [summaryText, hsp, List.append_assoc]

/-- C2 witness: two devices whose fields contain the sentinel words
only inside longer sentences, a populated summary, one stale popup. -/
theorem alert_scan_whole_field_only_witness :
    (∀ c ∈ ([devSubstringThreat, devNoThreat].map renderCard),
        threatRegexTest (jsTrim c.threatText) = false)
      ∧ existsThreatDetectedInCards
          { summary := renderSummary [devSubstringThreat, devNoThreat]
            grid := [devSubstringThreat, devNoThreat].map renderCard
            popups := [("stale").data] } = false
      ∧ (scanDomForThreat
          { summary := renderSummary [devSubstringThreat, devNoThreat]
            grid := [devSubstringThreat, devNoThreat].map renderCard
            popups := [("stale").data] }).popups = removePopup [("stale").data]
      ∧ ∃ pre post : List Char,
          summaryText (renderSummary [devSubstringThreat, devNoThreat])
            = pre ++ ("Threat Detected").data ++ post :=
  ⟨by decide,
   alert_scan_whole_field_only.1
     { summary := renderSummary [devSubstringThreat, devNoThreat]
       grid := [devSubstringThreat, devNoThreat].map renderCard
       popups := [("stale").data] } (by decide),
   alert_scan_whole_field_only.2.2.1 [devSubstringThreat, devNoThreat]
     (renderSummary [devSubstringThreat, devNoThreat]) [("stale").data] (by decide),
   alert_scan_whole_field_only.2.2.2 [devSubstringThreat, devNoThreat]⟩

/-- Leading whitespace is swallowed by the left trim. -/
theorem trimLeft_ws_append (ws l : List Char) (h : ∀ c ∈ ws, isJsWs c = true) :
    trimLeft (ws ++ l) = trimLeft l := by
  unfold trimLeft
  exact List.dropWhile_append_of_pos h

/-- Trailing whitespace is swallowed by the right trim. -/
theorem trimRight_append_ws (l ws : List Char) (h : ∀ c ∈ ws, isJsWs c = true) :
    trimRight (l ++ ws) = trimRight l := by
  unfold trimRight
  rw [List.reverse_append, List.dropWhile_append_of_pos]
  intro a ha
  exact h a (List.mem_reverse.mp ha)

/-- A nonempty text untouched by the left trim starts with a
non-whitespace character. -/
theorem head_not_ws_of_trimLeft_eq (c : Char) (rest : List Char)
    (h : trimLeft (c :: rest) = c :: rest) : isJsWs c = false := by
  by_cases hp : isJsWs c
  · exfalso
    rw [trimLeft, List.dropWhile_cons_of_pos hp] at h
    have hle : (rest.dropWhile isJsWs).length ≤ rest.length :=
      (List.dropWhile_sublist isJsWs).length_le
    have hlen := congrArg List.length h
    simp at hlen
    omega
  · simpa using hp

/-- Surrounding whitespace around a fully-trimmed nonempty core is
removed entirely by `trim`. -/
theorem jsTrim_ws_wrap (ws1 ws2 core : List Char)
    (h1 : ∀ c ∈ ws1, isJsWs c = true) (h2 : ∀ c ∈ ws2, isJsWs c = true)
    (hcl : trimLeft core = core) (hcr : trimRight core = core) (hne : core ≠ []) :
    jsTrim (ws1 ++ core ++ ws2) = core := by
  obtain ⟨c, rest, rfl⟩ := List.exists_cons_of_ne_nil hne
  have hc : isJsWs c = false := head_not_ws_of_trimLeft_eq c rest hcl
  unfold jsTrim
  rw [List.append_assoc, trimLeft_ws_append ws1 _ h1]
  have hl : trimLeft ((c :: rest) ++ ws2) = (c :: rest) ++ ws2 := by
    unfold trimLeft
    rw [List.cons_append, List.dropWhile_cons_of_neg (by simp [hc])]
  rw [hl, trimRight_append_ws _ _ h2, hcr]

/-- C9. Surrounding whitespace does not defeat the alert: a device
whose threat field is the sentinel phrase up to ASCII letter case,
wrapped in any leading/trailing whitespace, still triggers the scan
(the field text is trimmed before the anchored case-insensitive
match), so the alert surface is shown. -/
theorem whitespace_does_not_defeat_match
    (devices : List Device) (d : Device) (ws1 ws2 core : List Char)
    (s0 : Summary) (ps : List (List Char))
    (hd : d ∈ devices) (hthreat : d.threat = ws1 ++ core ++ ws2)
    (h1 : ∀ c ∈ ws1, isJsWs c = true) (h2 : ∀ c ∈ ws2, isJsWs c = true)
    (hcl : trimLeft core = core) (hcr : trimRight core = core)
    (hlow : jsLower core = ("threat detected").data) :
    existsThreatDetectedInCards
        { summary := s0, grid := devices.map renderCard, popups := ps } = true
      ∧ (scanDomForThreat
          { summary := s0, grid := devices.map renderCard, popups := ps }).popups ≠ [] := by
  have hne : core ≠ [] := by
    intro h
    rw [h] at hlow
    exact absurd hlow (by decide)
  have htrim : jsTrim d.threat = core := by
    rw [hthreat]
    exact jsTrim_ws_wrap ws1 ws2 core h1 h2 hcl hcr hne
  have hmatch : threatRegexTest (jsTrim d.threat) = true := by
    unfold threatRegexTest
    rw [htrim, hlow]
    decide
  have hclass : ¬ d.threat = ("No Threat").data := by
    intro heq
    rw [heq] at htrim
    have hnt : jsTrim (("No Threat").data) = ("No Threat").data := by decide
    have hcore := htrim.symm.trans hnt
    rw [hcore] at hlow
    exact absurd hlow (by decide)
  have hclassEq : (renderCard d).threatClass = ("threat").data := by
    show (if d.threat = ("No Threat").data
      then ("no-threat").data else ("threat").data) = ("threat").data
    rw [if_neg hclass]
  have hexists : existsThreatDetectedInCards
      { summary := s0, grid := devices.map renderCard, popups := ps } = true := by
    unfold existsThreatDetectedInCards
    rw [List.any_eq_true]
    refine ⟨d.threat, List.mem_filterMap.mpr ⟨renderCard d, List.mem_map_of_mem _ hd, ?_⟩,
      hmatch⟩
    rw [hclassEq, if_pos rfl]
    rfl
  refine ⟨hexists, ?_⟩
  unfold scanDomForThreat
  rw [hexists]
  simp [createPopup]

/-- C9 witness: threat field `"  threat DETECTED \t"` — the sentinel
up to case, wrapped in whitespace — triggers the alert on a page that
had no popup. -/
theorem whitespace_does_not_defeat_match_witness :
    devWsThreat ∈ [devWsThreat]
      ∧ devWsThreat.threat = ("  ").data ++ ("threat DETECTED").data ++ (" \t").data
      ∧ (existsThreatDetectedInCards
            { summary := renderSummary [devWsThreat]
              grid := [devWsThreat].map renderCard, popups := [] } = true
          ∧ (scanDomForThreat
              { summary := renderSummary [devWsThreat]
                grid := [devWsThreat].map renderCard, popups := [] }).popups ≠ []) :=
  ⟨List.mem_singleton.mpr rfl, by decide,
   whitespace_does_not_defeat_match [devWsThreat] devWsThreat
     (("  ").data) ((" \t").data) (("threat DETECTED").data)
     (renderSummary [devWsThreat]) []
     (List.mem_singleton.mpr rfl) (by decide) (by decide) (by decide)
     (by decide) (by decide) (by decide)⟩

/-- General form of the revised routine's degraded fallback: if the
wall clock stays at or below the sentinel threshold at every instant,
the routine waits out the full 2000 ms window and returns the
uptime-derived `1970-01-01THH:MM:SS` string — never a raw tick
counter. -/
theorem getIsoTimestampV1_uninitialized (timeAt : Nat → Nat) (start : Nat)
    (h : ∀ ms, timeAt ms ≤ 1000) :
    getIsoTimestampV1 timeAt start = uptimeFallbackIso (start + 2000) := by
  have hn : ∀ x, ¬ (timeAt x > 1000) := fun x => not_lt.mpr (h x)
  simp [getIsoTimestampV1, ntpWaitLoop, hn, h]
